import Mathlib

/-!
Shallow embedding of the WhatsApp video converter's conversion pipeline
(`ConversionWorker` in `hd.py`), covering: metadata extraction
(`get_video_metadata`), orientation-aware geometry computation and
filter synthesis (lines 80-89 of `run`), the per-file two-pass sequencing
with failure isolation, progress reporting, and the batch-completion
signal.  External-process outcomes (ffprobe exit/output, ffmpeg pass
exits) are inputs to the model; rational numbers stand in for Python
floats, with all concrete facts checked at inputs where the two agree.
-/

/-- Python `int()` truncation toward zero, applied to a rational. -/
def pyInt (q : ℚ) : ℤ := if 0 ≤ q then ⌊q⌋ else -⌊-q⌋

/-- The rounding function the specification's words refer to
("round denotes rounding to the nearest integer"). -/
def specRound (q : ℚ) : ℤ := ⌊q + 1 / 2⌋

/-- Decimal digit list to number, for the model of Python `int(str)`. -/
def digitsToNat (ds : List Char) : ℕ :=
  ds.foldl (fun a c => a * 10 + (c.toNat - 48)) 0

/-- Models Python `int()` applied to the rotate-tag string: an optional
sign followed by one or more decimal digits parses to that integer;
anything else raises `ValueError` (here: `none`). -/
def parseInt (s : String) : Option ℤ :=
  match s.data with
  | [] => none
  | '-' :: ds =>
    if ds ≠ [] ∧ ds.all (·.isDigit) then some (-(digitsToNat ds : ℤ)) else none
  | '+' :: ds =>
    if ds ≠ [] ∧ ds.all (·.isDigit) then some ((digitsToNat ds : ℤ)) else none
  | ds =>
    if ds ≠ [] ∧ ds.all (·.isDigit) then some ((digitsToNat ds : ℤ)) else none

/-- Models `os.path.basename` for the forward-slash paths used here. -/
def basename (p : String) : String := (p.splitOn "/").getLastD p

/-- Video metadata as returned by `get_video_metadata`:
width, height, and the rotate tag (line 55 of the source). -/
structure VideoMetadata where
  width : ℤ
  height : ℤ
  rotation : ℤ
deriving DecidableEq

/-- One entry of the ffprobe JSON `streams` array, restricted to the
fields the source reads: `codec_type`, `width`, `height`,
`tags.rotate` (absent keys are `none`). -/
structure FStream where
  codec_type : String
  width : Option ℤ
  height : Option ℤ
  rotate : Option String
deriving DecidableEq

/-- Outcome of running the external `ffprobe` process on one file:
its exit code, its stderr, and the parsed `streams` array when it
exited cleanly. -/
structure ProbeWorld where
  exitCode : ℕ
  stderr : String
  streams : List FStream
deriving DecidableEq

/-- The error detail built in the `except` branch of
`get_video_metadata` (line 57): file display name plus the exception. -/
def probe_error_detail (path : String) (e : String) : String :=
  "Failed to get video metadata for " ++ basename path ++ ".\n\nError: " ++ e

/-- `ConversionWorker.get_video_metadata` (lines 42-60).  A non-zero
ffprobe exit raises `CalledProcessError` (stderr appended to the
detail); a missing video stream returns the fixed message; missing
`width`/`height` keys raise `KeyError`; a present but unparsable
`rotate` tag raises `ValueError` inside `int(...)`.  All exceptions
are caught and become an error result. -/
def get_video_metadata (file_path : String) (world : ProbeWorld) :
    Except String VideoMetadata :=
  if world.exitCode ≠ 0 then
    .error (probe_error_detail file_path "CalledProcessError"
      ++ "\n\nFFprobe Output:\n" ++ world.stderr)
  else
    match world.streams.find? (fun s => s.codec_type == "video") with
    | none => .error "No video stream found."
    | some vs =>
      match vs.width, vs.height with
      | some w, some h =>
        match vs.rotate with
        | none => .ok ⟨w, h, 0⟩
        | some rs =>
          match parseInt rs with
          | some r => .ok ⟨w, h, r⟩
          | none => .error (probe_error_detail file_path "ValueError")
      | _, _ => .error (probe_error_detail file_path "KeyError")

/-- The four crop entries of `ratio_map` (lines 64-67). -/
inductive CropKind
  | c16x9
  | c9x16
  | c1x1
  | c19_5x9
deriving DecidableEq

/-- The aspect-ratio selection: "Keep Original (Pad)" or one of the
four crop entries. -/
inductive RatioChoice
  | padOriginal
  | crop (k : CropKind)
deriving DecidableEq

/-- Numeric ratios of `ratio_map` (lines 64-67). -/
def ratio_map : CropKind → ℚ
  | .c16x9 => 16 / 9
  | .c9x16 => 9 / 16
  | .c1x1 => 1
  | .c19_5x9 => 19.5 / 9

/-- Effective dimensions (line 80): swap raw (width, height) exactly
when the rotation equals 90 or 270. -/
def effectiveDims (m : VideoMetadata) : ℤ × ℤ :=
  if m.rotation = 90 ∨ m.rotation = 270 then (m.height, m.width)
  else (m.width, m.height)

/-- The crop filter template of line 88: either
`crop=ih*R:ih` (trim the sides) or `crop=iw:iw/R` (trim top/bottom). -/
inductive CropSpec
  | sides (R : ℚ)
  | topBottom (R : ℚ)
deriving DecidableEq

/-- The synthesized `-vf` filter graph: either the pad template of
line 83 (`scale=w=TW:h=TH:force_original_aspect_ratio=decrease,pad=
TW:TH:(ow-iw)/2:(oh-ih)/2:color=COLOR`) or the crop template of
line 89 (`CROP,scale=TW:TH`). -/
inductive VFilter
  | scalePad (target_w target_h : ℤ) (color : String)
  | cropScale (c : CropSpec) (target_w target_h : ℤ)
deriving DecidableEq

/-- Frame dimensions produced by a crop filter on input dims (iw, ih):
`crop=ih*R:ih` gives (ih*R, ih); `crop=iw:iw/R` gives (iw, iw/R). -/
def cropDims : CropSpec → ℚ → ℚ → ℚ × ℚ
  | .sides R, _, ih => (ih * R, ih)
  | .topBottom R, iw, _ => (iw, iw / R)

/-- Frame dimensions after `scale=w=tw:h=th:force_original_aspect_ratio=
decrease`: the largest frame of the input's aspect ratio fitting inside
(tw, th). -/
def scaleFitDims (tw th w h : ℚ) : ℚ × ℚ :=
  if w * th ≤ h * tw then (w * th / h, th) else (tw, h * tw / w)

/-- The pad offsets of the line 83 template, `(ow-iw)/2` and
`(oh-ih)/2`: the scaled frame is centered inside the target. -/
def padOffsets (tw th iw ih : ℚ) : ℚ × ℚ := ((tw - iw) / 2, (th - ih) / 2)

/-- Final frame dimensions a filter graph produces: both templates end
at exactly the embedded target (the pad fills up to it, the trailing
`scale=TW:TH` forces it). -/
def vfOutDims : VFilter → ℚ × ℚ
  | .scalePad tw th _ => ((tw : ℚ), (th : ℚ))
  | .cropScale _ tw th => ((tw : ℚ), (th : ℚ))

/-- The geometry derived for one file: the filter expression and the
target output dimensions. -/
structure GeometryPlan where
  scale_filter : VFilter
  target_w : ℤ
  target_h : ℤ
deriving DecidableEq

/-- Lines 81-89 of `run`: geometry planning from the effective
dimensions and the selected mode. -/
def buildPlan (mode : RatioChoice) (width height : ℤ) : GeometryPlan :=
  match mode with
  | .padOriginal =>
    let t := if width ≥ height then ((1280 : ℤ), (720 : ℤ)) else (720, 1280)
    ⟨.scalePad t.1 t.2 "black", t.1, t.2⟩
  | .crop k =>
    let target_ar := ratio_map k
    let input_ar : ℚ := (width : ℚ) / (height : ℚ)
    let t :=
      if target_ar ≥ 1 then ((1280 : ℤ), pyInt (1280 / target_ar))
      else (pyInt (1280 * target_ar), 1280)
    let crop_filter : CropSpec :=
      if input_ar > target_ar then .sides target_ar else .topBottom target_ar
    ⟨.cropScale crop_filter t.1 t.2, t.1, t.2⟩

/-- Geometry planning for a probed file: effective dimensions first
(line 80), then the plan. -/
def planFor (mode : RatioChoice) (m : VideoMetadata) : GeometryPlan :=
  buildPlan mode (effectiveDims m).1 (effectiveDims m).2

/-- The per-file status strings emitted through `update_status`. -/
inductive Status
  | analyzing
  | analyzeFailed
  | passOne
  | passTwo
  | done
  | encodeFailed
deriving DecidableEq

/-- The literal status text of each `update_status` emission. -/
def statusText : Status → String
  | .analyzing => "⚙️ Analyzing..."
  | .analyzeFailed => "❌ Analyze Failed"
  | .passOne => "🏃 Pass 1..."
  | .passTwo => "🏁 Pass 2..."
  | .done => "✅ Done"
  | .encodeFailed => "❌ Error"

/-- Observable actions of the worker, in emission order: the four
signals (`update_status`, `update_progress`, `show_error`, `finished`)
plus the two external encode invocations (`subprocess.run` of pass 1
and pass 2, carrying the filter graph of their command line). -/
inductive Event
  | status (path : String) (s : Status)
  | progress (pct : ℤ)
  | error (title detail : String)
  | invoke (path : String) (passNum : ℕ) (f : VFilter)
  | finished
deriving DecidableEq

/-- Whether an event is an external encode invocation. -/
def Event.isInvoke : Event → Bool
  | .invoke _ _ _ => true
  | _ => false

/-- Whether an event is an invocation of encoding pass `k`. -/
def Event.isInvokeOf (k : ℕ) : Event → Bool
  | .invoke _ p _ => p == k
  | _ => false

/-- One queued file together with the external-world outcomes the
worker would observe for it: the ffprobe result and the exit
code/stderr of each ffmpeg pass (`check=True` raises exactly on a
non-zero exit). -/
structure FileJob where
  path : String
  probe : ProbeWorld
  pass1Exit : ℕ
  pass1Stderr : String
  pass2Exit : ℕ
  pass2Stderr : String
deriving DecidableEq

/-- The error detail of the `CalledProcessError` handler of `run`
(line 110): file display name plus the tool's stderr. -/
def ffmpeg_error_detail (path stderr : String) : String :=
  "FFmpeg Error for " ++ basename path ++ ":\n" ++ stderr

/-- Line 112: `int(((i + 1) / total_files) * 100)` for 0-based `i`. -/
def progressOf (total i : ℕ) : ℤ :=
  pyInt ((((i : ℚ)) + 1) / (total : ℚ) * 100)

/-- The body of the `for` loop of `run` (lines 70-117) for file `i` of
`total`: analyze; on probe failure emit `AnalyzeFailed` plus the error
and stop (the `continue` skips the passes and the `finally` block);
otherwise plan geometry and run pass 1 then pass 2 under the
`try/except/finally`, emitting the batch progress in `finally`. -/
def processFile (mode : RatioChoice) (total i : ℕ) (job : FileJob) :
    List Event :=
  Event.status job.path .analyzing ::
    match get_video_metadata job.path job.probe with
    | .error e => [.status job.path .analyzeFailed, .error "Analysis Error" e]
    | .ok md =>
      (Event.status job.path .passOne ::
        Event.invoke job.path 1 (planFor mode md).scale_filter ::
          (if job.pass1Exit = 0 then
            Event.status job.path .passTwo ::
              Event.invoke job.path 2 (planFor mode md).scale_filter ::
                (if job.pass2Exit = 0 then [Event.status job.path .done]
                 else [Event.status job.path .encodeFailed,
                   Event.error "Conversion Error"
                     (ffmpeg_error_detail job.path job.pass2Stderr)])
           else [Event.status job.path .encodeFailed,
             Event.error "Conversion Error"
               (ffmpeg_error_detail job.path job.pass1Stderr)]))
        ++ [Event.progress (progressOf total i)]

/-- The `for` loop of `run` from index `i` on.  `running j` is the
value of the cooperatively-set `self.is_running` flag as observed at
the check (line 70) before file `j`; a false value breaks the loop. -/
def runFrom (running : ℕ → Bool) (mode : RatioChoice) (total : ℕ) :
    ℕ → List FileJob → List Event
  | _, [] => []
  | i, j :: rest =>
    if running i then
      processFile mode total i j ++ runFrom running mode total (i + 1) rest
    else []

/-- `ConversionWorker.run` (lines 62-118): the loop over the queued
files followed by the one `finished` emission. -/
def runWorker (running : ℕ → Bool) (mode : RatioChoice)
    (jobs : List FileJob) : List Event :=
  runFrom running mode jobs.length 0 jobs ++ [.finished]

/-- The progress percentages of a trace, in emission order. -/
def progressValues (evs : List Event) : List ℤ :=
  evs.filterMap fun e => match e with | .progress p => some p | _ => none

/-! ## Helper lemmas -/

theorem ratio_map_pos (k : CropKind) : 0 < ratio_map k := by
  cases k <;> norm_num [ratio_map]

theorem pyInt_mono_of_nonneg {a b : ℚ} (h : 0 ≤ a) (hab : a ≤ b) :
    pyInt a ≤ pyInt b := by
  rw [pyInt, if_pos h, pyInt, if_pos (le_trans h hab)]
  exact Int.floor_mono hab

/-- C4 counterexample helper fact kept inline below; the pad branch of
the planner evaluated under `width ≥ height`. -/
theorem buildPlan_pad_of_ge (w h : ℤ) (hc : w ≥ h) :
    buildPlan .padOriginal w h = ⟨.scalePad 1280 720 "black", 1280, 720⟩ := by
  simp [buildPlan, hc]

theorem buildPlan_pad_of_lt (w h : ℤ) (hc : ¬w ≥ h) :
    buildPlan .padOriginal w h = ⟨.scalePad 720 1280 "black", 720, 1280⟩ := by
  simp [buildPlan, hc]

theorem scaleFit_props (tw th w h : ℚ) (hw : 0 < w) (hh : 0 < h) :
    (scaleFitDims tw th w h).1 ≤ tw ∧ (scaleFitDims tw th w h).2 ≤ th
    ∧ (scaleFitDims tw th w h).1 * h = (scaleFitDims tw th w h).2 * w := by
  rw [scaleFitDims]
  split
  case isTrue hc =>
    refine ⟨?_, le_refl _, ?_⟩
    · rw [div_le_iff₀ hh]; linarith [hc]
    · field_simp
      ring
  case isFalse hc =>
    push_neg at hc
    refine ⟨le_refl _, ?_, ?_⟩
    · rw [div_le_iff₀ hw]; linarith [hc]
    · field_simp
      ring

/-! ## C5: rotation-aware effective dimensions -/

/-- C5: for rotation 90 or 270 the effective dimensions are the swapped
raw dimensions; for rotation 0 or 180 they are the raw dimensions. -/
theorem effective_dims_swap (m : VideoMetadata) :
    ((m.rotation = 90 ∨ m.rotation = 270) →
      effectiveDims m = (m.height, m.width))
    ∧ ((m.rotation = 0 ∨ m.rotation = 180) →
      effectiveDims m = (m.width, m.height)) := by
  constructor
  · intro h; rw [effectiveDims, if_pos h]
  · intro h
    have hn : ¬(m.rotation = 90 ∨ m.rotation = 270) := by
      rcases h with h | h <;> rw [h] <;> decide
    rw [effectiveDims, if_neg hn]

theorem effective_dims_swap_witness :
    effectiveDims ⟨1080, 1920, 90⟩ = (1920, 1080)
    ∧ effectiveDims ⟨1920, 1080, 0⟩ = (1920, 1080) :=
  ⟨(effective_dims_swap ⟨1080, 1920, 90⟩).1 (Or.inl rfl),
   (effective_dims_swap ⟨1920, 1080, 0⟩).2 (Or.inl rfl)⟩

/-! ## C4: crop-mode target dimensions (corrected: truncation, not
rounding) -/

/-- C4 counterexample: for the 19.5:9 crop ratio the planner's target
height is 590 (Python `int()` truncation), while rounding 1280/R to
the nearest integer gives 591, so the claimed formula fails. -/
theorem crop_target_round_counterexample :
    (buildPlan (.crop .c19_5x9) 1920 1080).target_h = 590
    ∧ specRound (1280 / ratio_map .c19_5x9) = 591
    ∧ (buildPlan (.crop .c19_5x9) 1920 1080).target_h
        ≠ specRound (1280 / ratio_map .c19_5x9) := by
  refine ⟨?_, ?_, ?_⟩
  · norm_num [buildPlan, ratio_map, pyInt]
  · norm_num [specRound, ratio_map]
  · norm_num [buildPlan, ratio_map, pyInt, specRound]

/-- C4 (amended): for every crop mode with ratio R the planner's target
dimensions are (1280, trunc(1280/R)) when R ≥ 1 and
(trunc(1280·R), 1280) otherwise, where trunc is Python `int()`
truncation toward zero; concretely (1280, 720), (720, 1280),
(1280, 1280) and (1280, 590) for the four crop modes. -/
theorem crop_target_truncation (k : CropKind) (w h : ℤ) :
    (((buildPlan (.crop k) w h).target_w, (buildPlan (.crop k) w h).target_h)
      = if ratio_map k ≥ 1 then ((1280 : ℤ), pyInt (1280 / ratio_map k))
        else (pyInt (1280 * ratio_map k), 1280))
    ∧ ((buildPlan (.crop k) w h).target_w, (buildPlan (.crop k) w h).target_h)
      = (match k with
         | .c16x9 => ((1280 : ℤ), 720)
         | .c9x16 => (720, 1280)
         | .c1x1 => (1280, 1280)
         | .c19_5x9 => (1280, 590)) := by
  cases k <;> constructor <;> norm_num [buildPlan, ratio_map, pyInt]

/-! ## C6: crop-mode filter semantics -/

/-- C6: with inputRatio = effectiveWidth/effectiveHeight, the planner
picks the trim-sides crop (width down to height·R, height unchanged)
exactly when inputRatio > R, otherwise the trim-top/bottom crop
(height down to width/R, width unchanged); the cropped frame never
exceeds the input, and the filter ends with a scale to exactly the
plan's target dimensions. -/
theorem crop_filter_semantics (k : CropKind) (w h : ℤ) (hh : 0 < h) :
    ((w : ℚ) / (h : ℚ) > ratio_map k →
      (buildPlan (.crop k) w h).scale_filter
          = .cropScale (.sides (ratio_map k))
              (buildPlan (.crop k) w h).target_w
              (buildPlan (.crop k) w h).target_h
        ∧ cropDims (.sides (ratio_map k)) ((w : ℤ) : ℚ) ((h : ℤ) : ℚ)
            = (((h : ℤ) : ℚ) * ratio_map k, ((h : ℤ) : ℚ))
        ∧ ((h : ℤ) : ℚ) * ratio_map k < ((w : ℤ) : ℚ))
    ∧ (¬((w : ℚ) / (h : ℚ) > ratio_map k) →
      (buildPlan (.crop k) w h).scale_filter
          = .cropScale (.topBottom (ratio_map k))
              (buildPlan (.crop k) w h).target_w
              (buildPlan (.crop k) w h).target_h
        ∧ cropDims (.topBottom (ratio_map k)) ((w : ℤ) : ℚ) ((h : ℤ) : ℚ)
            = (((w : ℤ) : ℚ), ((w : ℤ) : ℚ) / ratio_map k)
        ∧ ((w : ℤ) : ℚ) / ratio_map k ≤ ((h : ℤ) : ℚ))
    ∧ vfOutDims (buildPlan (.crop k) w h).scale_filter
        = (((buildPlan (.crop k) w h).target_w : ℚ),
           ((buildPlan (.crop k) w h).target_h : ℚ)) := by
  have hhq : (0 : ℚ) < ((h : ℤ) : ℚ) := by exact_mod_cast hh
  refine ⟨?_, ?_, ?_⟩
  · intro hc
    refine ⟨?_, rfl, ?_⟩
    · simp only [buildPlan]
      rw [if_pos hc]
    · have := (lt_div_iff₀ hhq).mp hc
      linarith [mul_comm (ratio_map k) ((h : ℤ) : ℚ)]
  · intro hc
    refine ⟨?_, rfl, ?_⟩
    · simp only [buildPlan]
      rw [if_neg hc]
    · have h1 : ((w : ℤ) : ℚ) ≤ ratio_map k * ((h : ℤ) : ℚ) :=
        (div_le_iff₀ hhq).mp (not_lt.mp hc)
      rw [div_le_iff₀ (ratio_map_pos k)]
      linarith [mul_comm (ratio_map k) ((h : ℤ) : ℚ)]
  · simp only [buildPlan, vfOutDims]

theorem crop_filter_semantics_witness :
    (buildPlan (.crop .c1x1) 1920 1080).scale_filter
        = .cropScale (.sides (ratio_map .c1x1))
            (buildPlan (.crop .c1x1) 1920 1080).target_w
            (buildPlan (.crop .c1x1) 1920 1080).target_h
    ∧ cropDims (.sides (ratio_map .c1x1)) ((1920 : ℤ) : ℚ) ((1080 : ℤ) : ℚ)
        = (((1080 : ℤ) : ℚ) * ratio_map .c1x1, ((1080 : ℤ) : ℚ))
    ∧ ((1080 : ℤ) : ℚ) * ratio_map .c1x1 < ((1920 : ℤ) : ℚ) :=
  (crop_filter_semantics .c1x1 1920 1080 (by decide)).1
    (by norm_num [ratio_map])

/-! ## C7: pad-mode target and filter semantics -/

/-- C7: in PadOriginal mode the target is exactly (1280, 720) when
effectiveWidth ≥ effectiveHeight and (720, 1280) otherwise; the filter
is the scale-to-fit-then-center-pad-with-black template; the scaled
frame fits inside the target, keeps the input's aspect ratio, is
centered by the pad offsets, and the padded output is exactly the
target. -/
theorem pad_mode_semantics (w h : ℤ) (hw : 0 < w) (hh : 0 < h) :
    ((w ≥ h →
        ((buildPlan .padOriginal w h).target_w,
         (buildPlan .padOriginal w h).target_h) = (1280, 720))
      ∧ (¬w ≥ h →
        ((buildPlan .padOriginal w h).target_w,
         (buildPlan .padOriginal w h).target_h) = (720, 1280)))
    ∧ (buildPlan .padOriginal w h).scale_filter
        = .scalePad (buildPlan .padOriginal w h).target_w
            (buildPlan .padOriginal w h).target_h "black"
    ∧ (scaleFitDims ((buildPlan .padOriginal w h).target_w : ℚ)
          ((buildPlan .padOriginal w h).target_h : ℚ) (w : ℚ) (h : ℚ)).1
        ≤ ((buildPlan .padOriginal w h).target_w : ℚ)
    ∧ (scaleFitDims ((buildPlan .padOriginal w h).target_w : ℚ)
          ((buildPlan .padOriginal w h).target_h : ℚ) (w : ℚ) (h : ℚ)).2
        ≤ ((buildPlan .padOriginal w h).target_h : ℚ)
    ∧ (scaleFitDims ((buildPlan .padOriginal w h).target_w : ℚ)
          ((buildPlan .padOriginal w h).target_h : ℚ) (w : ℚ) (h : ℚ)).1
          * (h : ℚ)
        = (scaleFitDims ((buildPlan .padOriginal w h).target_w : ℚ)
            ((buildPlan .padOriginal w h).target_h : ℚ) (w : ℚ) (h : ℚ)).2
          * (w : ℚ)
    ∧ (2 * (padOffsets ((buildPlan .padOriginal w h).target_w : ℚ)
          ((buildPlan .padOriginal w h).target_h : ℚ)
          (scaleFitDims ((buildPlan .padOriginal w h).target_w : ℚ)
            ((buildPlan .padOriginal w h).target_h : ℚ) (w : ℚ) (h : ℚ)).1
          (scaleFitDims ((buildPlan .padOriginal w h).target_w : ℚ)
            ((buildPlan .padOriginal w h).target_h : ℚ) (w : ℚ) (h : ℚ)).2).1
        + (scaleFitDims ((buildPlan .padOriginal w h).target_w : ℚ)
            ((buildPlan .padOriginal w h).target_h : ℚ) (w : ℚ) (h : ℚ)).1
        = ((buildPlan .padOriginal w h).target_w : ℚ))
    ∧ vfOutDims (buildPlan .padOriginal w h).scale_filter
        = (((buildPlan .padOriginal w h).target_w : ℚ),
           ((buildPlan .padOriginal w h).target_h : ℚ)) := by
  have hwq : (0 : ℚ) < (w : ℚ) := by exact_mod_cast hw
  have hhq : (0 : ℚ) < (h : ℚ) := by exact_mod_cast hh
  obtain ⟨hfit1, hfit2, har⟩ :=
    scaleFit_props ((buildPlan .padOriginal w h).target_w : ℚ)
      ((buildPlan .padOriginal w h).target_h : ℚ) (w : ℚ) (h : ℚ) hwq hhq
  refine ⟨⟨?_, ?_⟩, ?_, hfit1, hfit2, har, ?_, ?_⟩
  · intro hc; rw [buildPlan_pad_of_ge w h hc]
  · intro hc; rw [buildPlan_pad_of_lt w h hc]
  · by_cases hc : w ≥ h
    · rw [buildPlan_pad_of_ge w h hc]
    · rw [buildPlan_pad_of_lt w h hc]
  · rw [padOffsets]; ring
  · by_cases hc : w ≥ h
    · rw [buildPlan_pad_of_ge w h hc]; rfl
    · rw [buildPlan_pad_of_lt w h hc]; rfl

theorem pad_mode_semantics_witness :
    ((buildPlan .padOriginal 1920 1080).target_w,
      (buildPlan .padOriginal 1920 1080).target_h) = (1280, 720)
    ∧ (buildPlan .padOriginal 1920 1080).scale_filter
        = .scalePad (buildPlan .padOriginal 1920 1080).target_w
            (buildPlan .padOriginal 1920 1080).target_h "black" :=
  ⟨(pad_mode_semantics 1920 1080 (by decide) (by decide)).1.1 (by decide),
   (pad_mode_semantics 1920 1080 (by decide) (by decide)).2.1⟩

/-! ## Pipeline helpers -/

theorem runFrom_true_append (mode : RatioChoice) (total : ℕ)
    (pre post : List FileJob) :
    ∀ i, runFrom (fun _ => true) mode total i (pre ++ post)
      = runFrom (fun _ => true) mode total i pre
        ++ runFrom (fun _ => true) mode total (i + pre.length) post := by
  induction pre with
  | nil => intro i; simp [runFrom]
  | cons j rest ih =>
    intro i
    have hidx : i + 1 + rest.length = i + (rest.length + 1) := by omega
    simp only [List.cons_append, runFrom, if_true, List.length_cons,
      List.append_eq]
    rw [ih (i + 1), hidx, List.append_assoc]

theorem finished_not_mem_processFile (mode : RatioChoice) (total i : ℕ)
    (job : FileJob) : Event.finished ∉ processFile mode total i job := by
  cases hgm : get_video_metadata job.path job.probe with
  | error e => simp [processFile, hgm]
  | ok md =>
    simp only [processFile, hgm]
    split_ifs <;> simp

/-! ## C1: analysis failure is isolated -/

/-- C1: when metadata analysis fails, the file's trace is exactly
Analyzing, AnalyzeFailed, and one error event — no pass-1 or pass-2
invocation — and inside a batch the remaining files are still
processed after it. -/
theorem analyze_failure_isolated (mode : RatioChoice) (total i : ℕ)
    (job : FileJob) (e : String)
    (hfail : get_video_metadata job.path job.probe = .error e) :
    processFile mode total i job
      = [.status job.path .analyzing, .status job.path .analyzeFailed,
         .error "Analysis Error" e]
    ∧ (∀ ev ∈ processFile mode total i job, ev.isInvoke = false)
    ∧ ∀ pre post : List FileJob,
        runFrom (fun _ => true) mode total i (pre ++ job :: post)
          = runFrom (fun _ => true) mode total i pre
            ++ (processFile mode total (i + pre.length) job
              ++ runFrom (fun _ => true) mode total (i + pre.length + 1) post) := by
  have h1 : processFile mode total i job
      = [.status job.path .analyzing, .status job.path .analyzeFailed,
         .error "Analysis Error" e] := by
    simp [processFile, hfail]
  refine ⟨h1, ?_, ?_⟩
  · rw [h1]
    intro ev hev
    fin_cases hev <;> rfl
  · intro pre post
    rw [runFrom_true_append mode total pre (job :: post) i]
    rfl

theorem analyze_failure_isolated_witness :
    processFile .padOriginal 1 0 ⟨"a.mp4", ⟨0, "", []⟩, 0, "", 0, ""⟩
      = [.status "a.mp4" .analyzing, .status "a.mp4" .analyzeFailed,
         .error "Analysis Error" "No video stream found."] :=
  (analyze_failure_isolated .padOriginal 1 0
    ⟨"a.mp4", ⟨0, "", []⟩, 0, "", 0, ""⟩
    "No video stream found." (by rfl)).1

/-! ## C2: pass-1 failure is isolated -/

/-- C2: when pass 1 exits non-zero, the file's trace is Analyzing,
PassOneRunning, the single pass-1 invocation, the encode-failure
status, one error event carrying the tool's stderr, and the progress
emission — pass 2 is never invoked — and inside a batch the remaining
files are still processed after it. -/
theorem pass1_failure_isolated (mode : RatioChoice) (total i : ℕ)
    (job : FileJob) (md : VideoMetadata)
    (hok : get_video_metadata job.path job.probe = .ok md)
    (hfail : job.pass1Exit ≠ 0) :
    processFile mode total i job
      = [.status job.path .analyzing, .status job.path .passOne,
         .invoke job.path 1 (planFor mode md).scale_filter,
         .status job.path .encodeFailed,
         .error "Conversion Error"
           (ffmpeg_error_detail job.path job.pass1Stderr),
         .progress (progressOf total i)]
    ∧ (∀ ev ∈ processFile mode total i job, Event.isInvokeOf 2 ev = false)
    ∧ ∀ pre post : List FileJob,
        runFrom (fun _ => true) mode total i (pre ++ job :: post)
          = runFrom (fun _ => true) mode total i pre
            ++ (processFile mode total (i + pre.length) job
              ++ runFrom (fun _ => true) mode total (i + pre.length + 1) post) := by
  have h1 : processFile mode total i job
      = [.status job.path .analyzing, .status job.path .passOne,
         .invoke job.path 1 (planFor mode md).scale_filter,
         .status job.path .encodeFailed,
         .error "Conversion Error"
           (ffmpeg_error_detail job.path job.pass1Stderr),
         .progress (progressOf total i)] := by
    simp [processFile, hok, hfail]
  refine ⟨h1, ?_, ?_⟩
  · rw [h1]
    intro ev hev
    fin_cases hev <;> rfl
  · intro pre post
    rw [runFrom_true_append mode total pre (job :: post) i]
    rfl

theorem pass1_failure_isolated_witness :
    processFile .padOriginal 1 0
        ⟨"b.mp4", ⟨0, "", [⟨"video", some 1920, some 1080, none⟩]⟩,
          1, "ffmpeg boom", 0, ""⟩
      = [.status "b.mp4" .analyzing, .status "b.mp4" .passOne,
         .invoke "b.mp4" 1 (planFor .padOriginal ⟨1920, 1080, 0⟩).scale_filter,
         .status "b.mp4" .encodeFailed,
         .error "Conversion Error" (ffmpeg_error_detail "b.mp4" "ffmpeg boom"),
         .progress (progressOf 1 0)] :=
  (pass1_failure_isolated .padOriginal 1 0
    ⟨"b.mp4", ⟨0, "", [⟨"video", some 1920, some 1080, none⟩]⟩,
      1, "ffmpeg boom", 0, ""⟩
    ⟨1920, 1080, 0⟩ (by rfl) (by decide)).1

/-! ## C9: the batch-completion signal fires exactly once, at the end -/

/-- C9: for every flag history, mode, and job list — including runs
where every file fails and runs stopped early by the cooperative
flag — the worker's trace contains exactly one `finished` event, and
it is the last event of the trace. -/
theorem batch_finished_once (running : ℕ → Bool) (mode : RatioChoice)
    (jobs : List FileJob) :
    (runWorker running mode jobs).count .finished = 1
    ∧ (runWorker running mode jobs).getLast? = some .finished := by
  constructor
  · rw [runWorker, List.count_append]
    have h0 : ∀ js i,
        (runFrom running mode jobs.length i js).count Event.finished = 0 := by
      intro js
      induction js with
      | nil => intro i; simp [runFrom]
      | cons j rest ih =>
        intro i
        rw [runFrom]
        split
        · rw [List.count_append, ih (i + 1)]
          simp [List.count_eq_zero, finished_not_mem_processFile]
        · simp
    rw [h0 jobs 0]
    simp
  · rw [runWorker]
    exact List.getLast?_concat _

/-! ## C3: batch progress (corrected: truncation, and no progress event
for analysis failures) -/

theorem progressValues_append (a b : List Event) :
    progressValues (a ++ b) = progressValues a ++ progressValues b :=
  List.filterMap_append a b _

theorem progressValues_processFile (mode : RatioChoice) (total i : ℕ)
    (job : FileJob) :
    progressValues (processFile mode total i job) = [progressOf total i]
    ∨ progressValues (processFile mode total i job) = [] := by
  cases hgm : get_video_metadata job.path job.probe with
  | error e => right; simp [processFile, hgm, progressValues]
  | ok md =>
    left
    simp only [processFile, hgm]
    split_ifs <;> simp [progressValues]

theorem progressOf_mono (total i : ℕ) :
    progressOf total i ≤ progressOf total (i + 1) := by
  rcases Nat.eq_zero_or_pos total with h | h
  · subst h
    simp [progressOf]
  · have ht : (0 : ℚ) < (total : ℚ) := by exact_mod_cast h
    apply pyInt_mono_of_nonneg (by positivity)
    gcongr
    norm_num

theorem runFrom_progress_chain (running : ℕ → Bool) (mode : RatioChoice)
    (total : ℕ) :
    ∀ (js : List FileJob) (i : ℕ),
      List.Chain' (· ≤ ·) (progressValues (runFrom running mode total i js))
      ∧ ∀ x ∈ progressValues (runFrom running mode total i js),
          progressOf total i ≤ x := by
  intro js
  induction js with
  | nil => intro i; simp [runFrom, progressValues]
  | cons j rest ih =>
    intro i
    rw [runFrom]
    split
    · rw [progressValues_append]
      obtain ⟨ihc, ihb⟩ := ih (i + 1)
      rcases progressValues_processFile mode total i j with hpv | hpv <;> rw [hpv]
      · constructor
        · rw [List.singleton_append, List.chain'_cons']
          refine ⟨?_, ihc⟩
          intro y hy
          exact le_trans (progressOf_mono total i)
            (ihb y (List.mem_of_mem_head? hy))
        · intro x hx
          rw [List.singleton_append, List.mem_cons] at hx
          rcases hx with rfl | hx
          · exact le_refl _
          · exact le_trans (progressOf_mono total i) (ihb x hx)
      · rw [List.nil_append]
        exact ⟨ihc, fun x hx => le_trans (progressOf_mono total i) (ihb x hx)⟩
    · simp [progressValues]

/-- C3 counterexample: in a 3-file batch whose first file fails
analysis and whose other two convert, the emitted progress values are
exactly [66, 100] — no progress at all after the failed file, and 66
(truncation) rather than round(100·2/3) = 67 after the second file. -/
theorem progress_claim_counterexample :
    progressValues (runWorker (fun _ => true) .padOriginal
        [⟨"a", ⟨0, "", []⟩, 0, "", 0, ""⟩,
         ⟨"b", ⟨0, "", [⟨"video", some 1920, some 1080, none⟩]⟩, 0, "", 0, ""⟩,
         ⟨"c", ⟨0, "", [⟨"video", some 1920, some 1080, none⟩]⟩, 0, "", 0, ""⟩])
      = [66, 100]
    ∧ specRound (100 * 2 / 3) = 67 := by
  constructor
  · rw [runWorker]
    norm_num [runFrom, processFile, get_video_metadata, progressValues,
      List.find?, progressOf, pyInt, List.filterMap_cons, List.filterMap_nil]
  · norm_num [specRound]

/-- C3 (amended): after processing file i of n, a file whose analysis
succeeded emits exactly one progress value, int-truncation(100·i/n)
(not round); a file whose analysis failed emits no progress event at
all; and the emitted progress values of any run are monotonically
non-decreasing. -/
theorem progress_truncated_monotone :
    (∀ (mode : RatioChoice) (total i : ℕ) (job : FileJob)
        (md : VideoMetadata),
        get_video_metadata job.path job.probe = .ok md →
          progressValues (processFile mode total i job) = [progressOf total i])
    ∧ (∀ (mode : RatioChoice) (total i : ℕ) (job : FileJob) (e : String),
        get_video_metadata job.path job.probe = .error e →
          progressValues (processFile mode total i job) = [])
    ∧ ∀ (running : ℕ → Bool) (mode : RatioChoice) (jobs : List FileJob),
        List.Chain' (· ≤ ·) (progressValues (runWorker running mode jobs)) := by
  refine ⟨?_, ?_, ?_⟩
  · intro mode total i job md h
    simp only [processFile, h]
    split_ifs <;> simp [progressValues]
  · intro mode total i job e h
    simp [processFile, h, progressValues]
  · intro running mode jobs
    rw [runWorker, progressValues_append]
    have h2 : progressValues [Event.finished] = [] := by simp [progressValues]
    rw [h2, List.append_nil]
    exact (runFrom_progress_chain running mode jobs.length jobs 0).1

theorem progress_truncated_monotone_witness :
    progressValues (processFile .padOriginal 3 1
        ⟨"b", ⟨0, "", [⟨"video", some 1920, some 1080, none⟩]⟩, 0, "", 0, ""⟩)
      = [progressOf 3 1]
    ∧ progressOf 3 1 = 66 :=
  ⟨progress_truncated_monotone.1 .padOriginal 3 1
      ⟨"b", ⟨0, "", [⟨"video", some 1920, some 1080, none⟩]⟩, 0, "", 0, ""⟩
      ⟨1920, 1080, 0⟩ (by rfl),
   by norm_num [progressOf, pyInt]⟩

/-! ## C8: rotate-tag handling (corrected: an unparsable tag fails the
probe instead of defaulting to 0) -/

/-- C8 counterexample: a video stream whose rotate tag is present but
not an integer makes the probe fail with the ValueError detail — it
does not succeed with rotation 0 as claimed. -/
theorem rotate_unparsable_counterexample :
    get_video_metadata "v.mp4"
        ⟨0, "", [⟨"video", some 640, some 480, some "junk"⟩]⟩
      = .error (probe_error_detail "v.mp4" "ValueError")
    ∧ get_video_metadata "v.mp4"
        ⟨0, "", [⟨"video", some 640, some 480, some "junk"⟩]⟩
      ≠ .ok ⟨640, 480, 0⟩ := by
  have h1 : get_video_metadata "v.mp4"
      ⟨0, "", [⟨"video", some 640, some 480, some "junk"⟩]⟩
      = .error (probe_error_detail "v.mp4" "ValueError") := by rfl
  exact ⟨h1, by rw [h1]; simp⟩

/-- C8 (amended): when ffprobe succeeds and a video stream with integer
width and height is found, rotation defaults to 0 only when the rotate
tag is absent (and the probe succeeds); a rotate tag that is present
but unparsable as an integer makes the probe fail with the ValueError
detail. -/
theorem rotate_default_or_probe_fail (path : String) (wld : ProbeWorld)
    (vs : FStream) (w h : ℤ)
    (hexit : wld.exitCode = 0)
    (hfind : wld.streams.find? (fun s => s.codec_type == "video") = some vs)
    (hw : vs.width = some w) (hh : vs.height = some h) :
    (vs.rotate = none → get_video_metadata path wld = .ok ⟨w, h, 0⟩)
    ∧ ∀ rs, vs.rotate = some rs → parseInt rs = none →
        get_video_metadata path wld
          = .error (probe_error_detail path "ValueError") := by
  constructor
  · intro hr
    simp [get_video_metadata, hexit, hfind, hw, hh, hr]
  · intro rs hr hp
    simp [get_video_metadata, hexit, hfind, hw, hh, hr, hp]

theorem rotate_default_or_probe_fail_witness :
    get_video_metadata "a" ⟨0, "", [⟨"video", some 10, some 20, none⟩]⟩
      = .ok ⟨10, 20, 0⟩
    ∧ get_video_metadata "b" ⟨0, "", [⟨"video", some 10, some 20, some "x"⟩]⟩
      = .error (probe_error_detail "b" "ValueError") :=
  ⟨(rotate_default_or_probe_fail "a"
      ⟨0, "", [⟨"video", some 10, some 20, none⟩]⟩
      ⟨"video", some 10, some 20, none⟩ 10 20 rfl (by rfl) rfl rfl).1 rfl,
   (rotate_default_or_probe_fail "b"
      ⟨0, "", [⟨"video", some 10, some 20, some "x"⟩]⟩
      ⟨"video", some 10, some 20, some "x"⟩ 10 20 rfl (by rfl) rfl rfl).2
      "x" rfl (by rfl)⟩

/-! ## C10: rotation values outside the documented set pass through -/

/-- C10: any integer that the rotate tag parses to — including values
such as -90 or 45 outside the documented set — is returned unvalidated
by the probe, and the planner swaps (width, height) exactly when that
integer equals 90 or 270, so any other value leaves the raw
dimensions unswapped. -/
theorem rotation_unvalidated (path stderr : String) (w h r : ℤ)
    (rs : String) (hparse : parseInt rs = some r) :
    get_video_metadata path
        ⟨0, stderr, [⟨"video", some w, some h, some rs⟩]⟩
      = .ok ⟨w, h, r⟩
    ∧ ((r = 90 ∨ r = 270) → effectiveDims ⟨w, h, r⟩ = (h, w))
    ∧ (¬(r = 90 ∨ r = 270) → effectiveDims ⟨w, h, r⟩ = (w, h)) := by
  refine ⟨?_, ?_, ?_⟩
  · simp [get_video_metadata, List.find?, hparse]
  · intro hr
    rw [effectiveDims, if_pos hr]
  · intro hr
    rw [effectiveDims, if_neg hr]

theorem rotation_unvalidated_witness :
    get_video_metadata "f.mp4"
        ⟨0, "", [⟨"video", some 640, some 480, some "-90"⟩]⟩
      = .ok ⟨640, 480, -90⟩
    ∧ effectiveDims ⟨640, 480, -90⟩ = (640, 480) :=
  ⟨(rotation_unvalidated "f.mp4" "" 640 480 (-90) "-90" (by rfl)).1,
   (rotation_unvalidated "f.mp4" "" 640 480 (-90) "-90" (by rfl)).2.2
     (by decide)⟩
